import Mathlib

/-!
Verification of the Deep Research orchestration pipeline
(`src/deep_research/research_manager.py` and its collaborating agent modules).

The Python code is shallowly embedded: every `yield` of the async generator
`ResearchManager.run` becomes an element of an explicit event list, collaborator
calls (`Runner.run` on the clarification / planner / writer agents, and the
completion-ordered results of the concurrent search tasks) become inputs
supplied through a `RunEnv` record, and an exception raised by a collaborator
is represented by `Option.none` at the corresponding field.
-/

/- ## Search-count normalization (`validate_n_searches`) -/

/-- Inputs accepted by `validate_n_searches`: the Python function is called with
either a string (from the UI textbox) or a number.  Integral numbers are
modelled; Python bool/float corner inputs are outside the claims' scope. -/
inductive NInput where
  | str (s : String)
  | num (n : Int)
deriving DecidableEq

/-- Whitespace recognized by Python's `int(str)` parsing and `str.strip`
(common ASCII whitespace; exotic unicode space classes are not modelled). -/
def isSpaceChar (c : Char) : Bool :=
  c = ' ' ∨ c = '\t' ∨ c = '\n' ∨ c = '\r'

/-- Strip leading and trailing whitespace from a character list
(models Python `str.strip()`). -/
def trimChars (cs : List Char) : List Char :=
  ((cs.dropWhile isSpaceChar).reverse.dropWhile isSpaceChar).reverse

/-- Numeric value of a list of decimal digit characters. -/
def digitsVal (cs : List Char) : Nat :=
  cs.foldl (fun a c => a * 10 + (c.toNat - '0'.toNat)) 0

/-- Parse a nonempty all-digit character list (models the digit part of
Python `int(str)`). -/
def parseDigits (cs : List Char) : Option Nat :=
  if cs ≠ [] ∧ cs.all Char.isDigit then Option.some (digitsVal cs) else Option.none

/-- Models Python `int(s)` on a string: optional surrounding whitespace, one
optional sign, then decimal digits; anything else raises `ValueError`
(= `Option.none`).  Digit-group underscores are not modelled. -/
def pyIntOfString (s : String) : Option Int :=
  match trimChars s.data with
  | '+' :: rest => (parseDigits rest).map (fun n => (n : Int))
  | '-' :: rest => (parseDigits rest).map (fun n => -(n : Int))
  | t => (parseDigits t).map (fun n => (n : Int))

/-- Constant `MIN_SEARCHES` from `research_manager.py`. -/
def MIN_SEARCHES : Int := 1

/-- Constant `MAX_SEARCHES` from `research_manager.py`. -/
def MAX_SEARCHES : Int := 5

/-- Constant `DEFAULT_SEARCHES` from `research_manager.py`. -/
def DEFAULT_SEARCHES : Int := 3

/-- The guardrail clamping inside `validate_n_searches`
(`if n < MIN: n = MIN elif n > MAX: n = MAX`). -/
def clampSearches (n : Int) : Int :=
  if n < MIN_SEARCHES then MIN_SEARCHES
  else if n > MAX_SEARCHES then MAX_SEARCHES
  else n

/-- Function `validate_n_searches` (`research_manager.py` lines 13-24, identical copy in
`deep_research.py` lines 13-24):
`n = int(n) if n else DEFAULT` followed by the guardrails, with
`ValueError`/`TypeError` from `int()` giving the default.  Python truthiness:
the empty string and the number `0` are falsy and take the default branch. -/
def validate_n_searches (input : NInput) : Int :=
  match input with
  | NInput.num n => if n = 0 then DEFAULT_SEARCHES else clampSearches n
  | NInput.str s =>
      if s = "" then DEFAULT_SEARCHES
      else
        match pyIntOfString s with
        | Option.some n => clampSearches n
        | Option.none => DEFAULT_SEARCHES

lemma validate_num_eq (n : Int) :
    validate_n_searches (NInput.num n) =
      if n = 0 then DEFAULT_SEARCHES else clampSearches n := rfl

lemma validate_str_eq (s : String) :
    validate_n_searches (NInput.str s) =
      if s = "" then DEFAULT_SEARCHES
      else
        match pyIntOfString s with
        | Option.some n => clampSearches n
        | Option.none => DEFAULT_SEARCHES := rfl

lemma clampSearches_bounds (n : Int) :
    1 ≤ clampSearches n ∧ clampSearches n ≤ 5 := by
  unfold clampSearches MIN_SEARCHES MAX_SEARCHES
  split
  · omega
  · split <;> omega

lemma validate_n_searches_bounds (x : NInput) :
    1 ≤ validate_n_searches x ∧ validate_n_searches x ≤ 5 := by
  cases x with
  | num n =>
      rw [validate_num_eq]
      split
      · exact ⟨by decide, by decide⟩
      · exact clampSearches_bounds n
  | str s =>
      rw [validate_str_eq]
      split
      · exact ⟨by decide, by decide⟩
      · split
        · exact clampSearches_bounds _
        · exact ⟨by decide, by decide⟩

lemma validate_n_searches_fixed (v : Int) (h1 : 1 ≤ v) (h5 : v ≤ 5) :
    validate_n_searches (NInput.num v) = v := by
  rw [validate_num_eq, if_neg (by omega)]
  unfold clampSearches MIN_SEARCHES MAX_SEARCHES
  rw [if_neg (by omega), if_neg (by omega)]

/-- Claim C3, counterexample: the claim says a parsed value below 1 is clamped
to 1, but the number `0` is falsy in Python, so `validate_n_searches(0)`
takes the default branch and returns 3, not 1. -/
theorem C3_counterexample :
    (0 : Int) < 1 ∧ validate_n_searches (NInput.num 0) = 3 ∧
      validate_n_searches (NInput.num 0) ≠ 1 := by
  refine ⟨by norm_num, by decide, by decide⟩

/-- Claim C3 (amended): for every string or number input the normalizer
returns an integer in [1,5]; empty or unparseable input yields exactly the
default 3; a parsed value below 1 is clamped to 1 — except the falsy number 0,
which yields the default 3; a parsed value above 5 is clamped to 5; the
function is total. -/
theorem C3_normalizer_clamps (x : NInput) :
    (1 ≤ validate_n_searches x ∧ validate_n_searches x ≤ 5) ∧
    validate_n_searches (NInput.str "") = 3 ∧
    (∀ s : String, pyIntOfString s = Option.none →
      validate_n_searches (NInput.str s) = 3) ∧
    (∀ n : Int, n ≠ 0 → n < 1 → validate_n_searches (NInput.num n) = 1) ∧
    (∀ n : Int, 5 < n → validate_n_searches (NInput.num n) = 5) ∧
    (∀ s : String, ∀ n : Int, pyIntOfString s = Option.some n → n < 1 →
      validate_n_searches (NInput.str s) = 1) ∧
    (∀ s : String, ∀ n : Int, pyIntOfString s = Option.some n → 5 < n →
      validate_n_searches (NInput.str s) = 5) := by
  refine ⟨validate_n_searches_bounds x, by decide, ?_, ?_, ?_, ?_, ?_⟩
  · intro s hs
    rw [validate_str_eq]
    split
    · rfl
    · rw [hs]
      rfl
  · intro n hn0 hn1
    rw [validate_num_eq, if_neg hn0]
    unfold clampSearches MIN_SEARCHES MAX_SEARCHES
    rw [if_pos (by omega)]
  · intro n hn
    rw [validate_num_eq, if_neg (by omega)]
    unfold clampSearches MIN_SEARCHES MAX_SEARCHES
    rw [if_neg (by omega), if_pos (by omega)]
  · intro s n hs hn
    rw [validate_str_eq]
    split
    · rename_i h
      subst h
      rw [show pyIntOfString "" = (Option.none : Option Int) from rfl] at hs
      exact Option.noConfusion hs
    · rw [hs]
      show clampSearches n = 1
      unfold clampSearches MIN_SEARCHES MAX_SEARCHES
      rw [if_pos (by omega)]
  · intro s n hs hn
    rw [validate_str_eq]
    split
    · rename_i h
      subst h
      rw [show pyIntOfString "" = (Option.none : Option Int) from rfl] at hs
      exact Option.noConfusion hs
    · rw [hs]
      show clampSearches n = 5
      unfold clampSearches MIN_SEARCHES MAX_SEARCHES
      rw [if_neg (by omega), if_pos (by omega)]

/-- Claim C3 (amended), witness at concrete inputs: "abc" is unparseable and
yields 3; the number -2 is clamped to 1; the string "9" is clamped to 5. -/
theorem C3_normalizer_clamps_witness :
    validate_n_searches (NInput.str "abc") = 3 ∧
    validate_n_searches (NInput.num (-2)) = 1 ∧
    validate_n_searches (NInput.str "9") = 5 := by
  refine ⟨(C3_normalizer_clamps (NInput.str "abc")).2.2.1 "abc" (by decide), ?_, ?_⟩
  · exact (C3_normalizer_clamps (NInput.num (-2))).2.2.2.1 (-2) (by decide) (by decide)
  · exact (C3_normalizer_clamps (NInput.str "9")).2.2.2.2.2.2 "9" 9 (by decide) (by decide)

/-- Claim C9: the search-count normalizer is idempotent — feeding its result
back in (as a number) returns the same value — and every integer in [1,5] is a
fixed point. -/
theorem C9_normalizer_idempotent :
    (∀ x : NInput,
      validate_n_searches (NInput.num (validate_n_searches x)) = validate_n_searches x) ∧
    (∀ v : Int, 1 ≤ v → v ≤ 5 → validate_n_searches (NInput.num v) = v) := by
  constructor
  · intro x
    obtain ⟨h1, h5⟩ := validate_n_searches_bounds x
    exact validate_n_searches_fixed _ h1 h5
  · exact validate_n_searches_fixed

/-- Claim C9, witness: idempotence evaluated at the unparseable string "xyz"
and the fixed point 4. -/
theorem C9_normalizer_idempotent_witness :
    validate_n_searches (NInput.num (validate_n_searches (NInput.str "xyz"))) =
      validate_n_searches (NInput.str "xyz") ∧
    validate_n_searches (NInput.num 4) = 4 :=
  ⟨C9_normalizer_idempotent.1 (NInput.str "xyz"),
   C9_normalizer_idempotent.2 4 (by decide) (by decide)⟩

/- ## Agent output schemas -/

/-- Schema `QueryAssessment` from `clarification_agent.py`. -/
structure QueryAssessment where
  complexity : Int
  reasoning : String
deriving DecidableEq

/-- Schema `FollowUpQuestion` from `clarification_agent.py`. -/
structure FollowUpQuestion where
  question : String
  purpose : String
deriving DecidableEq

/-- Schema `ClarificationPlan` from `clarification_agent.py`. -/
structure ClarificationPlan where
  assessment : QueryAssessment
  questions : List FollowUpQuestion
  should_ask_questions : Bool
deriving DecidableEq

/-- Schema `WebSearchItem` from `planner_agent.py`. -/
structure WebSearchItem where
  reason : String
  query : String
deriving DecidableEq

/-- Schema `WebSearchPlan` from `src/deep_research/planner_agent.py` (the variant
imported by `research_manager.py`; it declares no length bounds on
`searches`, unlike the `openai_sdk_projects` revision whose pydantic schema
adds `min_length=1, max_length=5` and a `deviation_reasoning` field). -/
structure WebSearchPlan where
  searches : List WebSearchItem
deriving DecidableEq

/-- Modelled from the spec: the `writer_agent` module (the `ReportData`
schema) is not under `src/`; the spec's ResearchReport record gives a
long-form markdown report, a short summary and optional follow-up questions.
`research_manager.py` reads only `markdown_report`. -/
structure ReportData where
  short_summary : String := ""
  markdown_report : String
  follow_up_questions : List String := []
deriving DecidableEq

/- ## JSON serialization (pydantic `model_dump_json`) -/

/-- JSON escaping for one character (the escapes relevant to the fields at
hand; pydantic additionally escapes other control characters). -/
def jsonEscapeChar (c : Char) : String :=
  if c = '\\' then "\\\\"
  else if c = '\"' then "\\\""
  else if c = '\n' then "\\n"
  else if c = '\t' then "\\t"
  else if c = '\r' then "\\r"
  else String.singleton c

/-- JSON escaping of a string body. -/
def jsonEscape (s : String) : String :=
  String.join (s.data.map jsonEscapeChar)

/-- A JSON string literal. -/
def jsonStr (s : String) : String := "\"" ++ jsonEscape s ++ "\""

/-- Method `ClarificationPlan.model_dump_json()`: pydantic's compact JSON encoding,
fields in declaration order. -/
def ClarificationPlan.model_dump_json (p : ClarificationPlan) : String :=
  "\x7b\"assessment\":\x7b\"complexity\":" ++ toString p.assessment.complexity
    ++ ",\"reasoning\":" ++ jsonStr p.assessment.reasoning
    ++ "\x7d,\"questions\":["
    ++ String.intercalate ","
        (p.questions.map (fun q =>
          "\x7b\"question\":" ++ jsonStr q.question
            ++ ",\"purpose\":" ++ jsonStr q.purpose ++ "\x7d"))
    ++ "],\"should_ask_questions\":"
    ++ (if p.should_ask_questions then "true" else "false") ++ "\x7d"

/- ## ResearchManager -/

/-- The `clarification_answers` argument of `ResearchManager.run`:
Python `None`, the `"SKIP"` sentinel string, or a dict (an insertion-ordered
question-to-answer mapping). -/
inductive ClarificationAnswers where
  | pyNone
  | skip
  | answers (qa : List (String × String))
deriving DecidableEq

/-- The `ResearchManager` instance state: the two optional instance fields
`_clarification_reasoning` / `_clarification_complexity`, set together (both
by `run` itself and by `run_research` in `deep_research.py`), probed with
`hasattr`.  `Option.none` models "attributes absent". -/
structure ResearchManager where
  clarificationInfo : Option (String × Int)
deriving DecidableEq

/-- Collaborator outcomes consumed at the `await` points of one `run`
invocation: the fresh trace id minted by `gen_trace_id()`, the clarification
agent result (`Option.none` = the call raised), the planner result, the
completion-ordered outcomes of the search tasks (`Option.none` = that task's
result was `None`), and the writer result. -/
structure RunEnv where
  freshTraceId : String
  clarificationResult : Option ClarificationPlan
  planResult : WebSearchPlan
  searchCompletion : List (Option String)
  reportResult : ReportData
deriving DecidableEq

/-- The observable outcome of one `run` invocation: the ordered event stream
(one element per `yield`), whether the clarification agent was invoked, the
enhanced query handed to the planner (`Option.none` = planner never reached)
and the summaries handed to the writer (`Option.none` = writer never
reached). -/
structure RunOutcome where
  events : List String
  assessorCalled : Bool
  plannerInput : Option String
  synthesisSummaries : Option (List String)
deriving DecidableEq

/-- The trace-link event (`research_manager.py` line 39). -/
def traceLinkEvent (trace_id : String) : String :=
  "🔍 [View trace](https://platform.openai.com/traces/trace?trace_id=" ++ trace_id ++ ")"

/-- The marker prefix of the clarification-pause event. -/
def CLARIFICATION_MARKER : String := "CLARIFICATION_NEEDED:"

/-- The clarification-pause event (`research_manager.py` line 80). -/
def clarificationEvent (plan : ClarificationPlan) (trace_id : String) : String :=
  CLARIFICATION_MARKER ++ plan.model_dump_json ++ "|TRACE_ID:" ++ trace_id

/-- One answer line of the resume echo (`research_manager.py` lines 106-111). -/
def answerEvent (answer : String) : String :=
  if answer = "Answer skipped" then "**Answer:** *[Skipped]* \t"
  else if answer = "" ∨ trimChars answer.data = [] then "**Answer:** *[Left blank]* \t"
  else "**Answer:** " ++ answer ++ " \t"

/-- The question/answer echo lines (`research_manager.py` lines 104-112):
1-based enumeration of the dict in insertion order, a blank spacer after each
pair. -/
def qaEvents (qa : List (String × String)) : List String :=
  qa.enum.flatMap (fun p =>
    ["**Question " ++ toString (p.1 + 1) ++ ":** " ++ p.2.1 ++ " \t",
     answerEvent p.2.2,
     ""])

/-- The resume-branch events (`research_manager.py` lines 93-115). -/
def resumeEvents (self : ResearchManager) (ans : ClarificationAnswers) : List String :=
  ["## Clarification Questions & Answers"]
    ++ (match self.clarificationInfo with
        | Option.some info =>
            ["**Why clarification was requested:** " ++ info.1 ++ " \n",
             "**Query complexity level:** " ++ toString info.2 ++ "/3 \n",
             ""]
        | Option.none => [])
    ++ (match ans with
        | ClarificationAnswers.pyNone => []
        | ClarificationAnswers.skip => ["*All clarification questions were skipped*"]
        | ClarificationAnswers.answers qa => qaEvents qa)
    ++ [""]

/-- Method `ResearchManager.build_enhanced_query` (`research_manager.py` lines
215-225).  Python `if not clarification_answers` is true for `None` and for
an empty dict, so both give the bare `Query:` form. -/
def build_enhanced_query (original_query : String)
    (clarification_answers : Option (List (String × String))) : String :=
  match clarification_answers with
  | Option.none => "Query: " ++ original_query
  | Option.some qa =>
      if qa = [] then "Query: " ++ original_query
      else
        qa.foldl
          (fun acc p => acc ++ ("Q: " ++ p.1 ++ "\nA: " ++ p.2 ++ "\n\n"))
          ("Original Query: " ++ original_query ++ "\n\nAdditional Context from User:\n")

/-- The post-planning truncation (`research_manager.py` lines 169-170):
`if len(search_plan.searches) > n_searches: searches = searches[:n_searches]`. -/
def truncateSearches (plan : WebSearchPlan) (n_searches : Int) : List WebSearchItem :=
  if (plan.searches.length : Int) > n_searches then plan.searches.take n_searches.toNat
  else plan.searches

/-- The fan-out progress events (`research_manager.py` lines 182-187): one
`"Searching... k/total completed"` line per completed task, `k` counting up
from 1, `total = len(tasks)`. -/
def completedEvents (total : Nat) (numDone : Nat) : List String :=
  (List.range numDone).map (fun i =>
    "Searching... " ++ toString (i + 1) ++ "/" ++ toString total ++ " completed \n")

/-- Lines 117-200 of `research_manager.py`: the common tail of `run` from the
SKIP-reset and enhanced-query construction through planning, the concurrent
search fan-out and report synthesis.  `effectiveAnswers` is the value of
`clarification_answers` after the SKIP reset at lines 118-119; `pre` are the
events already emitted by the branch that led here. -/
def ResearchManager.runFromPlanning (query : String) (n_searches : Int)
    (effectiveAnswers : Option (List (String × String))) (pre : List String)
    (assessorCalled : Bool) (env : RunEnv) : RunOutcome :=
  let enhanced_query := build_enhanced_query query effectiveAnswers
  let searches := truncateSearches env.planResult n_searches
  let results := env.searchCompletion.filterMap id
  { events := pre
      ++ ["## Generating search plan...",
          "Will perform **" ++ toString searches.length ++ "** searches (validated: "
            ++ toString n_searches ++ " requested) \n"]
      ++ searches.flatMap (fun s =>
          ["Query: **" ++ s.query ++ "** \t", "Reason: " ++ s.reason ++ " \n"])
      ++ ["## Searching..."]
      ++ completedEvents searches.length env.searchCompletion.length
      ++ ["Finished searching \n",
          "## Thinking about report...",
          "Finished writing report",
          env.reportResult.markdown_report],
    assessorCalled := assessorCalled,
    plannerInput := Option.some enhanced_query,
    synthesisSummaries := Option.some results }

/-- Method `ResearchManager.run` (`research_manager.py` lines 28-200).  Every
`yield` becomes one event; `return` after the clarification event terminates
the stream.  An exception from the clarification agent
(`env.clarificationResult = Option.none`) is swallowed by the
`try`/`except` and falls through to planning. -/
def ResearchManager.run (self : ResearchManager) (query : String) (nInput : NInput)
    (clarification_answers : ClarificationAnswers) (traceIdOpt : Option String)
    (env : RunEnv) : RunOutcome :=
  let n_searches := validate_n_searches nInput
  let trace_id := traceIdOpt.getD env.freshTraceId
  match clarification_answers with
  | ClarificationAnswers.pyNone =>
      let pre := [traceLinkEvent trace_id, "## Analyzing query complexity..."]
      match env.clarificationResult with
      | Option.some plan =>
          if plan.should_ask_questions then
            { events := pre ++ [clarificationEvent plan trace_id],
              assessorCalled := true,
              plannerInput := Option.none,
              synthesisSummaries := Option.none }
          else
            ResearchManager.runFromPlanning query n_searches Option.none pre true env
      | Option.none =>
          ResearchManager.runFromPlanning query n_searches Option.none pre true env
  | ClarificationAnswers.skip =>
      ResearchManager.runFromPlanning query n_searches Option.none
        (resumeEvents self ClarificationAnswers.skip) false env
  | ClarificationAnswers.answers qa =>
      ResearchManager.runFromPlanning query n_searches (Option.some qa)
        (resumeEvents self (ClarificationAnswers.answers qa)) false env

/-- Method `ResearchManager.search` (`research_manager.py` lines 202-213): the
agent invocation is commented out and the `try` body is the bare
`return "test"`, which cannot raise, so the `except` branch returning `None`
is unreachable; `Option.none` would model that branch. -/
def ResearchManager.search (_item : WebSearchItem) : Option String :=
  Option.some "test"

/- ## Event tagging -/

/-- An event is clarification-marked when it begins with the
`CLARIFICATION_NEEDED:` marker (the check `chunk.startswith(...)` performed by
the caller in `deep_research.py` lines 60-73). -/
def clarificationTagged (e : String) : Bool :=
  CLARIFICATION_MARKER.data.isPrefixOf e.data

/-- The fixed marker the caller uses to recognize the final report
(`deep_research.py` line 76: `chunk.startswith("# Final report for")`). -/
def FINAL_REPORT_MARKER : String := "# Final report for"

/-- An event is final-report-marked when it begins with the final-report
marker. -/
def finalReportTagged (e : String) : Bool :=
  FINAL_REPORT_MARKER.data.isPrefixOf e.data

lemma answerEvent_untagged (a : String) :
    clarificationTagged (answerEvent a) = false ∧
      finalReportTagged (answerEvent a) = false := by
  unfold answerEvent
  split
  · exact ⟨rfl, rfl⟩
  · split
    · exact ⟨rfl, rfl⟩
    · exact ⟨rfl, rfl⟩

lemma qaEvents_untagged (qa : List (String × String)) (e : String)
    (he : e ∈ qaEvents qa) :
    clarificationTagged e = false ∧ finalReportTagged e = false := by
  unfold qaEvents at he
  rw [List.mem_flatMap] at he
  obtain ⟨p, _, hp⟩ := he
  simp only [List.mem_cons, List.not_mem_nil, or_false] at hp
  rcases hp with h | h | h
  · subst h
    exact ⟨rfl, rfl⟩
  · subst h
    exact answerEvent_untagged p.2.2
  · subst h
    exact ⟨rfl, rfl⟩

lemma resumeEvents_untagged (self : ResearchManager) (ans : ClarificationAnswers)
    (e : String) (he : e ∈ resumeEvents self ans) :
    clarificationTagged e = false ∧ finalReportTagged e = false := by
  unfold resumeEvents at he
  rw [List.mem_append, List.mem_append, List.mem_append] at he
  rcases he with ((h | h) | h) | h
  · rw [List.mem_singleton] at h
    subst h
    exact ⟨rfl, rfl⟩
  · cases hinfo : self.clarificationInfo with
    | some info =>
        rw [hinfo] at h
        simp only [List.mem_cons, List.not_mem_nil, or_false] at h
        rcases h with h | h | h <;> subst h
        · exact ⟨rfl, rfl⟩
        · exact ⟨rfl, rfl⟩
        · exact ⟨rfl, rfl⟩
    | none =>
        rw [hinfo] at h
        exact absurd h (List.not_mem_nil e)
  · cases ans with
    | pyNone => exact absurd h (List.not_mem_nil e)
    | skip =>
        rw [List.mem_singleton] at h
        subst h
        exact ⟨rfl, rfl⟩
    | answers qa => exact qaEvents_untagged qa e h
  · rw [List.mem_singleton] at h
    subst h
    exact ⟨rfl, rfl⟩

/-- Every event `runFromPlanning` emits is either one of the already-emitted
`pre` events, the raw report body, or a planning/search/progress line carrying
neither the clarification marker nor the final-report marker. -/
lemma runFromPlanning_events_shape (query : String) (n_searches : Int)
    (effectiveAnswers : Option (List (String × String))) (pre : List String)
    (assessorCalled : Bool) (env : RunEnv) (e : String)
    (he : e ∈ (ResearchManager.runFromPlanning query n_searches effectiveAnswers
        pre assessorCalled env).events) :
    e ∈ pre ∨ e = env.reportResult.markdown_report ∨
      (clarificationTagged e = false ∧ finalReportTagged e = false) := by
  unfold ResearchManager.runFromPlanning at he
  simp only [List.append_assoc, List.mem_append] at he
  rcases he with h | h | h | h | h | h
  · exact Or.inl h
  · refine Or.inr (Or.inr ?_)
    simp only [List.mem_cons, List.not_mem_nil, or_false] at h
    rcases h with h | h <;> subst h
    · exact ⟨rfl, rfl⟩
    · exact ⟨rfl, rfl⟩
  · refine Or.inr (Or.inr ?_)
    rw [List.mem_flatMap] at h
    obtain ⟨s, _, hs⟩ := h
    simp only [List.mem_cons, List.not_mem_nil, or_false] at hs
    rcases hs with h | h <;> subst h
    · exact ⟨rfl, rfl⟩
    · exact ⟨rfl, rfl⟩
  · refine Or.inr (Or.inr ?_)
    rw [List.mem_singleton] at h
    subst h
    exact ⟨rfl, rfl⟩
  · refine Or.inr (Or.inr ?_)
    unfold completedEvents at h
    rw [List.mem_map] at h
    obtain ⟨i, _, hi⟩ := h
    subst hi
    exact ⟨rfl, rfl⟩
  · simp only [List.mem_cons, List.not_mem_nil, or_false] at h
    rcases h with h | h | h | h
    · exact Or.inr (Or.inr (h ▸ ⟨rfl, rfl⟩))
    · exact Or.inr (Or.inr (h ▸ ⟨rfl, rfl⟩))
    · exact Or.inr (Or.inr (h ▸ ⟨rfl, rfl⟩))
    · exact Or.inr (Or.inl h)

lemma traceLink_not_clarificationTagged (t : String) :
    clarificationTagged (traceLinkEvent t) = false := rfl

lemma traceLink_not_finalReportTagged (t : String) :
    finalReportTagged (traceLinkEvent t) = false := rfl

lemma analyzing_not_clarificationTagged :
    clarificationTagged "## Analyzing query complexity..." = false := rfl

lemma analyzing_not_finalReportTagged :
    finalReportTagged "## Analyzing query complexity..." = false := rfl

lemma clarificationEvent_tagged (plan : ClarificationPlan) (tid : String) :
    clarificationTagged (clarificationEvent plan tid) = true := by
  unfold clarificationTagged clarificationEvent CLARIFICATION_MARKER
  simp [List.isPrefixOf]

/-- Claim C1: with `should_ask_questions=true` from the assessor, `run` emits
the trace link, the status line, and then exactly one clarification-marked
event carrying the serialized plan and the trace id; that event is the last
one, the stream terminates there, and neither the planner nor the writer is
reached (no final report). -/
theorem C1_clarification_pause (self : ResearchManager) (query : String)
    (nInput : NInput) (traceIdOpt : Option String) (env : RunEnv)
    (plan : ClarificationPlan)
    (hplan : env.clarificationResult = Option.some plan)
    (hask : plan.should_ask_questions = true) :
    (self.run query nInput ClarificationAnswers.pyNone traceIdOpt env).events =
      [traceLinkEvent (traceIdOpt.getD env.freshTraceId),
       "## Analyzing query complexity...",
       clarificationEvent plan (traceIdOpt.getD env.freshTraceId)] ∧
    ((self.run query nInput ClarificationAnswers.pyNone traceIdOpt env).events.filter
        clarificationTagged).length = 1 ∧
    (self.run query nInput ClarificationAnswers.pyNone traceIdOpt env).events.getLast? =
      Option.some (clarificationEvent plan (traceIdOpt.getD env.freshTraceId)) ∧
    (self.run query nInput ClarificationAnswers.pyNone traceIdOpt env).plannerInput =
      Option.none ∧
    (self.run query nInput ClarificationAnswers.pyNone traceIdOpt env).synthesisSummaries =
      Option.none := by
  have hrun : self.run query nInput ClarificationAnswers.pyNone traceIdOpt env =
      { events := [traceLinkEvent (traceIdOpt.getD env.freshTraceId),
                   "## Analyzing query complexity...",
                   clarificationEvent plan (traceIdOpt.getD env.freshTraceId)],
        assessorCalled := true,
        plannerInput := Option.none,
        synthesisSummaries := Option.none } := by
    unfold ResearchManager.run
    rw [hplan]
    simp [hask]
  rw [hrun]
  refine ⟨rfl, ?_, rfl, rfl, rfl⟩
  simp [List.filter, traceLink_not_clarificationTagged, analyzing_not_clarificationTagged,
    clarificationEvent_tagged]

/-- Claim C1, witness: a concrete manager, query and environment whose
assessor asks questions; `run` reaches neither planner nor writer. -/
theorem C1_clarification_pause_witness :
    ((ResearchManager.mk Option.none).run "What about AI?" (NInput.num 3)
        ClarificationAnswers.pyNone (Option.some "trace_abc")
        { freshTraceId := "trace_fresh",
          clarificationResult := Option.some
            { assessment := { complexity := 2, reasoning := "broad topic" },
              questions := [{ question := "Which industry?", purpose := "narrow scope" }],
              should_ask_questions := true },
          planResult := WebSearchPlan.mk [],
          searchCompletion := [],
          reportResult := { markdown_report := "# Final report for AI" } }).plannerInput =
      Option.none ∧
    ((ResearchManager.mk Option.none).run "What about AI?" (NInput.num 3)
        ClarificationAnswers.pyNone (Option.some "trace_abc")
        { freshTraceId := "trace_fresh",
          clarificationResult := Option.some
            { assessment := { complexity := 2, reasoning := "broad topic" },
              questions := [{ question := "Which industry?", purpose := "narrow scope" }],
              should_ask_questions := true },
          planResult := WebSearchPlan.mk [],
          searchCompletion := [],
          reportResult := { markdown_report := "# Final report for AI" } }).synthesisSummaries =
      Option.none :=
  ⟨(C1_clarification_pause (ResearchManager.mk Option.none) "What about AI?" (NInput.num 3)
      (Option.some "trace_abc") _ _ rfl rfl).2.2.2.1,
   (C1_clarification_pause (ResearchManager.mk Option.none) "What about AI?" (NInput.num 3)
      (Option.some "trace_abc") _ _ rfl rfl).2.2.2.2⟩

/-- Claim C6: with `should_ask_questions=false`, and likewise when the
assessor call raises (`clarificationResult = none`, swallowed by the
`try`/`except`), `run` proceeds to planning — the planner receives the
no-context enhanced query and the writer is reached — while no
clarification-marked event appears anywhere in the stream; the stream does
not fail (the embedding of the swallowing branch is the same total
continuation as the `false` branch). -/
theorem C6_assessor_declined_proceeds (self : ResearchManager) (query : String)
    (nInput : NInput) (traceIdOpt : Option String) (env : RunEnv)
    (hpath : env.clarificationResult = Option.none ∨
      ∃ plan, env.clarificationResult = Option.some plan ∧
        plan.should_ask_questions = false)
    (hrep : clarificationTagged env.reportResult.markdown_report = false) :
    (self.run query nInput ClarificationAnswers.pyNone traceIdOpt env).plannerInput =
      Option.some (build_enhanced_query query Option.none) ∧
    (self.run query nInput ClarificationAnswers.pyNone traceIdOpt env).synthesisSummaries =
      Option.some (env.searchCompletion.filterMap id) ∧
    ∀ e ∈ (self.run query nInput ClarificationAnswers.pyNone traceIdOpt env).events,
      clarificationTagged e = false := by
  have hrun : self.run query nInput ClarificationAnswers.pyNone traceIdOpt env =
      ResearchManager.runFromPlanning query (validate_n_searches nInput) Option.none
        [traceLinkEvent (traceIdOpt.getD env.freshTraceId),
         "## Analyzing query complexity..."] true env := by
    unfold ResearchManager.run
    rcases hpath with h | ⟨plan, h, hask⟩
    · rw [h]
    · rw [h]
      simp [hask]
  rw [hrun]
  refine ⟨rfl, rfl, ?_⟩
  intro e he
  rcases runFromPlanning_events_shape _ _ _ _ _ _ _ he with h | h | h
  · simp only [List.mem_cons, List.not_mem_nil, or_false] at h
    rcases h with h | h <;> subst h
    · exact traceLink_not_clarificationTagged _
    · exact analyzing_not_clarificationTagged
  · exact h ▸ hrep
  · exact h.1

/-- A concrete environment whose assessor call raises (is `none`). -/
def photoEnv : RunEnv :=
  { freshTraceId := "trace_fresh",
    clarificationResult := Option.none,
    planResult := WebSearchPlan.mk
      [{ reason := "baseline", query := "photosynthesis overview" }],
    searchCompletion := [Option.some "test"],
    reportResult := { markdown_report := "# Final report for photosynthesis" } }

/-- Claim C6, witness: assessor raise (left case) at a concrete environment;
the planner and writer are both reached. -/
theorem C6_assessor_declined_proceeds_witness :
    ((ResearchManager.mk Option.none).run "What is photosynthesis?" (NInput.num 2)
        ClarificationAnswers.pyNone Option.none photoEnv).plannerInput =
      Option.some (build_enhanced_query "What is photosynthesis?" Option.none) ∧
    ((ResearchManager.mk Option.none).run "What is photosynthesis?" (NInput.num 2)
        ClarificationAnswers.pyNone Option.none photoEnv).synthesisSummaries =
      Option.some [("test" : String)] :=
  ⟨(C6_assessor_declined_proceeds (ResearchManager.mk Option.none) "What is photosynthesis?"
      (NInput.num 2) Option.none photoEnv (Or.inl rfl) rfl).1,
   (C6_assessor_declined_proceeds (ResearchManager.mk Option.none) "What is photosynthesis?"
      (NInput.num 2) Option.none photoEnv (Or.inl rfl) rfl).2.1⟩

/-- Claim C7: in resume mode (`clarification_answers` present, whether an
answers mapping or the `"SKIP"` sentinel) the complexity assessor is never
invoked, no clarification-marked event appears anywhere in the stream, the
first event is the resume status header, and the run proceeds to planning. -/
theorem C7_resume_never_reassesses (self : ResearchManager) (query : String)
    (nInput : NInput) (traceIdOpt : Option String) (env : RunEnv)
    (ca : ClarificationAnswers)
    (hca : ca ≠ ClarificationAnswers.pyNone)
    (hrep : clarificationTagged env.reportResult.markdown_report = false) :
    (self.run query nInput ca traceIdOpt env).assessorCalled = false ∧
    (self.run query nInput ca traceIdOpt env).events.head? =
      Option.some "## Clarification Questions & Answers" ∧
    (self.run query nInput ca traceIdOpt env).plannerInput.isSome = true ∧
    ∀ e ∈ (self.run query nInput ca traceIdOpt env).events,
      clarificationTagged e = false := by
  cases ca with
  | pyNone => exact absurd rfl hca
  | skip =>
      refine ⟨rfl, rfl, rfl, ?_⟩
      intro e he
      rcases runFromPlanning_events_shape _ _ _ _ _ _ _ he with h | h | h
      · exact (resumeEvents_untagged self ClarificationAnswers.skip e h).1
      · exact h ▸ hrep
      · exact h.1
  | answers qa =>
      refine ⟨rfl, rfl, rfl, ?_⟩
      intro e he
      rcases runFromPlanning_events_shape _ _ _ _ _ _ _ he with h | h | h
      · exact (resumeEvents_untagged self (ClarificationAnswers.answers qa) e h).1
      · exact h ▸ hrep
      · exact h.1

/-- A concrete environment for resume-mode runs. -/
def healthEnv : RunEnv :=
  { freshTraceId := "trace_fresh",
    clarificationResult := Option.none,
    planResult := WebSearchPlan.mk
      [{ reason := "clarified focus", query := "AI hospitals adoption" }],
    searchCompletion := [Option.some "test"],
    reportResult := { markdown_report := "# Final report for AI in healthcare" } }

/-- A concrete resume-mode answers mapping. -/
def healthAnswers : ClarificationAnswers :=
  ClarificationAnswers.answers
    [("Which industry?", "Hospitals"), ("What timeframe?", "Answer skipped")]

/-- Claim C7, witness: a concrete resume call with an answers mapping; the
assessor is not invoked and the stream starts with the resume header. -/
theorem C7_resume_never_reassesses_witness :
    ((ResearchManager.mk (Option.some ("broad topic", 2))).run "AI in healthcare"
        (NInput.str "abc") healthAnswers (Option.some "trace_abc")
        healthEnv).assessorCalled = false ∧
    ((ResearchManager.mk (Option.some ("broad topic", 2))).run "AI in healthcare"
        (NInput.str "abc") healthAnswers (Option.some "trace_abc")
        healthEnv).events.head? =
      Option.some "## Clarification Questions & Answers" :=
  ⟨(C7_resume_never_reassesses (ResearchManager.mk (Option.some ("broad topic", 2)))
      "AI in healthcare" (NInput.str "abc") (Option.some "trace_abc") healthEnv
      healthAnswers (by decide) rfl).1,
   (C7_resume_never_reassesses (ResearchManager.mk (Option.some ("broad topic", 2)))
      "AI in healthcare" (NInput.str "abc") (Option.some "trace_abc") healthEnv
      healthAnswers (by decide) rfl).2.1⟩

lemma length_filterMap_id_eq_countP (l : List (Option String)) :
    (l.filterMap id).length = l.countP (fun o => o.isSome) := by
  induction l with
  | nil => rfl
  | cons h t ih => cases h <;> simp [List.filterMap_cons, List.countP_cons, ih]

/-- Claim C2: with N planned searches (after truncation) and one completion
outcome per task, `run` emits exactly N "completed" progress events whose
counts increase 1..N over the total N, followed by the terminal
"Finished searching" event, and the synthesis stage receives exactly the
successful summaries — one per `some` outcome, the failed (`none`) outcomes
dropped without any per-item event.  (Path: the assessor raised, so the run
went straight to planning.) -/
theorem C2_fanout_completeness (self : ResearchManager) (query : String)
    (nInput : NInput) (traceIdOpt : Option String) (env : RunEnv)
    (hclar : env.clarificationResult = Option.none)
    (hlen : env.searchCompletion.length =
      (truncateSearches env.planResult (validate_n_searches nInput)).length) :
    (self.run query nInput ClarificationAnswers.pyNone traceIdOpt env).events =
      [traceLinkEvent (traceIdOpt.getD env.freshTraceId),
       "## Analyzing query complexity...",
       "## Generating search plan...",
       "Will perform **"
         ++ toString (truncateSearches env.planResult (validate_n_searches nInput)).length
         ++ "** searches (validated: " ++ toString (validate_n_searches nInput)
         ++ " requested) \n"]
      ++ (truncateSearches env.planResult (validate_n_searches nInput)).flatMap
          (fun s => ["Query: **" ++ s.query ++ "** \t", "Reason: " ++ s.reason ++ " \n"])
      ++ ["## Searching..."]
      ++ completedEvents (truncateSearches env.planResult (validate_n_searches nInput)).length
          (truncateSearches env.planResult (validate_n_searches nInput)).length
      ++ ["Finished searching \n",
          "## Thinking about report...",
          "Finished writing report",
          env.reportResult.markdown_report] ∧
    (completedEvents (truncateSearches env.planResult (validate_n_searches nInput)).length
        (truncateSearches env.planResult (validate_n_searches nInput)).length).length =
      (truncateSearches env.planResult (validate_n_searches nInput)).length ∧
    (∀ i, i < (truncateSearches env.planResult (validate_n_searches nInput)).length →
      (completedEvents (truncateSearches env.planResult (validate_n_searches nInput)).length
        (truncateSearches env.planResult (validate_n_searches nInput)).length)[i]? =
      Option.some ("Searching... " ++ toString (i + 1) ++ "/"
        ++ toString (truncateSearches env.planResult (validate_n_searches nInput)).length
        ++ " completed \n")) ∧
    (self.run query nInput ClarificationAnswers.pyNone traceIdOpt env).synthesisSummaries =
      Option.some (env.searchCompletion.filterMap id) ∧
    (env.searchCompletion.filterMap id).length =
      env.searchCompletion.countP (fun o => o.isSome) := by
  have hrun : self.run query nInput ClarificationAnswers.pyNone traceIdOpt env =
      ResearchManager.runFromPlanning query (validate_n_searches nInput) Option.none
        [traceLinkEvent (traceIdOpt.getD env.freshTraceId),
         "## Analyzing query complexity..."] true env := by
    unfold ResearchManager.run
    rw [hclar]
  rw [hrun]
  refine ⟨?_, ?_, ?_, rfl, length_filterMap_id_eq_countP _⟩
  · unfold ResearchManager.runFromPlanning
    rw [hlen]
    simp [List.append_assoc]
  · simp [completedEvents]
  · intro i hi
    simp [completedEvents, List.getElem?_map, List.getElem?_range, hi]

/-- A concrete environment with two planned searches of which the second
fails: completion order delivers one success then one failure. -/
def fanoutEnv : RunEnv :=
  { freshTraceId := "trace_fresh",
    clarificationResult := Option.none,
    planResult := WebSearchPlan.mk
      [{ reason := "overview", query := "climate change overview" },
       { reason := "recent data", query := "climate statistics 2024" }],
    searchCompletion := [Option.some "summary one", Option.none],
    reportResult := { markdown_report := "# Final report for climate change" } }

/-- Claim C2, witness: N = 2 planned searches, K = 1 success; the writer
receives exactly the one successful summary and the count identity holds. -/
theorem C2_fanout_completeness_witness :
    ((ResearchManager.mk Option.none).run "climate change" (NInput.num 2)
        ClarificationAnswers.pyNone Option.none fanoutEnv).synthesisSummaries =
      Option.some [("summary one" : String)] ∧
    (fanoutEnv.searchCompletion.filterMap id).length =
      fanoutEnv.searchCompletion.countP (fun o => o.isSome) :=
  ⟨(C2_fanout_completeness (ResearchManager.mk Option.none) "climate change"
      (NInput.num 2) Option.none fanoutEnv rfl (by decide)).2.2.2.1,
   (C2_fanout_completeness (ResearchManager.mk Option.none) "climate change"
      (NInput.num 2) Option.none fanoutEnv rfl (by decide)).2.2.2.2⟩

/-- Claim C4, counterexample: the post-processing only truncates, so when the
planner collaborator returns an empty search list the claimed lower bound
`1 <= len(searches)` fails after post-processing: an actual run announces
performing 0 searches. -/
theorem C4_counterexample :
    truncateSearches (WebSearchPlan.mk []) (validate_n_searches (NInput.num 3)) = [] ∧
    ¬(1 ≤ (truncateSearches (WebSearchPlan.mk [])
        (validate_n_searches (NInput.num 3))).length) ∧
    (((ResearchManager.mk Option.none).run "q" (NInput.num 3)
        ClarificationAnswers.skip (Option.some "trace_abc")
        { freshTraceId := "trace_fresh",
          clarificationResult := Option.none,
          planResult := WebSearchPlan.mk [],
          searchCompletion := [],
          reportResult := { markdown_report := "# Final report for q" } }).events.contains
      "Will perform **0** searches (validated: 3 requested) \n") = true := by
  exact ⟨rfl, by decide, by decide⟩

/-- Claim C4 (amended): after the orchestrator's post-processing the upper
bound always holds and the list is only ever truncated (an initial segment of
the planner output, never padded); the lower bound `1 <= len(searches)`
additionally holds whenever the planner collaborator returned at least one
search (as its schema in the `openai_sdk_projects` revision requires), but
not for an empty planner output. -/
theorem C4_plan_size_invariant (plan : WebSearchPlan) (nInput : NInput)
    (hne : 1 ≤ plan.searches.length) :
    1 ≤ (truncateSearches plan (validate_n_searches nInput)).length ∧
    (truncateSearches plan (validate_n_searches nInput)).length ≤ 5 ∧
    ∃ rest, truncateSearches plan (validate_n_searches nInput) ++ rest = plan.searches := by
  obtain ⟨h1, h5⟩ := validate_n_searches_bounds nInput
  unfold truncateSearches
  split
  · rename_i hgt
    rw [List.length_take]
    refine ⟨le_min (by omega) hne, le_trans (Nat.min_le_left _ _) (by omega),
      plan.searches.drop (validate_n_searches nInput).toNat, List.take_append_drop _ _⟩
  · rename_i hle
    push_neg at hle
    exact ⟨hne, by omega, [], List.append_nil _⟩

/-- Claim C4 (amended), witness: a two-item planner output with requested
count 1 is truncated to a one-item initial segment within bounds. -/
theorem C4_plan_size_invariant_witness :
    1 ≤ (truncateSearches (WebSearchPlan.mk
        [{ reason := "overview", query := "solar overview" },
         { reason := "detail", query := "solar cell efficiency" }])
        (validate_n_searches (NInput.num 1))).length ∧
    (truncateSearches (WebSearchPlan.mk
        [{ reason := "overview", query := "solar overview" },
         { reason := "detail", query := "solar cell efficiency" }])
        (validate_n_searches (NInput.num 1))).length ≤ 5 ∧
    ∃ rest, truncateSearches (WebSearchPlan.mk
        [{ reason := "overview", query := "solar overview" },
         { reason := "detail", query := "solar cell efficiency" }])
        (validate_n_searches (NInput.num 1)) ++ rest =
      [{ reason := "overview", query := "solar overview" },
       { reason := "detail", query := "solar cell efficiency" }] :=
  C4_plan_size_invariant (WebSearchPlan.mk
    [{ reason := "overview", query := "solar overview" },
     { reason := "detail", query := "solar cell efficiency" }])
    (NInput.num 1) (by decide)

/-- The spec's description of the context block, for comparison with the
source's accumulation loop: each question/answer pair rendered as a
`Q:`/`A:` block, concatenated in the mapping's insertion order. -/
def qaBlock : List (String × String) → String
  | [] => ""
  | p :: rest => "Q: " ++ p.1 ++ "\nA: " ++ p.2 ++ "\n\n" ++ qaBlock rest

lemma foldl_qa_append (qa : List (String × String)) (init : String) :
    qa.foldl (fun acc p => acc ++ ("Q: " ++ p.1 ++ "\nA: " ++ p.2 ++ "\n\n")) init =
      init ++ qaBlock qa := by
  induction qa generalizing init with
  | nil => simp [qaBlock, String.append_empty]
  | cons p rest ih =>
      rw [List.foldl_cons, ih, qaBlock]
      rw [String.append_assoc]

/-- Claim C8: the enhanced query handed to the planner is the bare no-context
form `Query: <original>` when there is no clarification context — for `None`,
for the global `"SKIP"` sentinel, and for an empty answers mapping — and
otherwise is the original query followed by each question/answer pair in the
mapping's insertion order. -/
theorem C8_enhanced_query (self : ResearchManager) (query : String)
    (nInput : NInput) (traceIdOpt : Option String) (env : RunEnv)
    (qa : List (String × String)) (hqa : qa ≠ []) :
    build_enhanced_query query Option.none = "Query: " ++ query ∧
    build_enhanced_query query (Option.some []) = "Query: " ++ query ∧
    build_enhanced_query query (Option.some qa) =
      "Original Query: " ++ query ++ "\n\nAdditional Context from User:\n" ++ qaBlock qa ∧
    (self.run query nInput ClarificationAnswers.skip traceIdOpt env).plannerInput =
      Option.some ("Query: " ++ query) ∧
    (self.run query nInput (ClarificationAnswers.answers qa) traceIdOpt env).plannerInput =
      Option.some ("Original Query: " ++ query
        ++ "\n\nAdditional Context from User:\n" ++ qaBlock qa) := by
  have h3 : build_enhanced_query query (Option.some qa) =
      "Original Query: " ++ query ++ "\n\nAdditional Context from User:\n" ++ qaBlock qa := by
    simp only [build_enhanced_query]
    rw [if_neg hqa]
    exact foldl_qa_append qa _
  refine ⟨rfl, rfl, h3, rfl, ?_⟩
  show Option.some (build_enhanced_query query (Option.some qa)) = _
  rw [h3]

/-- Claim C8, witness: concrete skip-sentinel and two-pair resume calls. -/
theorem C8_enhanced_query_witness :
    ((ResearchManager.mk (Option.some ("broad topic", 2))).run "AI in healthcare"
        (NInput.num 3) ClarificationAnswers.skip (Option.some "trace_abc")
        healthEnv).plannerInput =
      Option.some ("Query: " ++ "AI in healthcare") ∧
    ((ResearchManager.mk (Option.some ("broad topic", 2))).run "AI in healthcare"
        (NInput.num 3) (ClarificationAnswers.answers
          [("Which industry?", "Hospitals"), ("What timeframe?", "Answer skipped")])
        (Option.some "trace_abc") healthEnv).plannerInput =
      Option.some ("Original Query: " ++ "AI in healthcare"
        ++ "\n\nAdditional Context from User:\n"
        ++ qaBlock [("Which industry?", "Hospitals"), ("What timeframe?", "Answer skipped")]) :=
  ⟨(C8_enhanced_query (ResearchManager.mk (Option.some ("broad topic", 2)))
      "AI in healthcare" (NInput.num 3) (Option.some "trace_abc") healthEnv
      [("Which industry?", "Hospitals"), ("What timeframe?", "Answer skipped")]
      (by decide)).2.2.2.1,
   (C8_enhanced_query (ResearchManager.mk (Option.some ("broad topic", 2)))
      "AI in healthcare" (NInput.num 3) (Option.some "trace_abc") healthEnv
      [("Which industry?", "Hospitals"), ("What timeframe?", "Answer skipped")]
      (by decide)).2.2.2.2⟩

/-- Claim C10 (implicit): `ResearchManager.search` is a total stub — the real
agent call is commented out and the `try` body is `return "test"`, so for
every search item it returns `"test"`, never the absent (`None`) failure
value; consequently in the fan-out every planned search counts as a success
(the filtered result list keeps one `"test"` entry per item). -/
theorem C10_search_stub (item : WebSearchItem) :
    ResearchManager.search item = Option.some "test" ∧
    (ResearchManager.search item).isSome = true ∧
    (∀ items : List WebSearchItem,
      (items.map ResearchManager.search).filterMap id = items.map (fun _ => "test")) ∧
    (∀ items : List WebSearchItem,
      ((items.map ResearchManager.search).filterMap id).length = items.length) := by
  have h3 : ∀ items : List WebSearchItem,
      (items.map ResearchManager.search).filterMap id = items.map (fun _ => "test") := by
    intro items
    induction items with
    | nil => rfl
    | cons a t ih => simp [ResearchManager.search, List.filterMap_cons, ih]
  refine ⟨rfl, rfl, h3, ?_⟩
  intro items
  rw [h3 items, List.length_map]

/-- The events of `runFromPlanning` split as: prior events, a middle block
containing no final-report-marked line, then the "Finished writing report"
status and the raw report body as the very last element. -/
lemma runFromPlanning_events_split (query : String) (n_searches : Int)
    (eff : Option (List (String × String))) (pre : List String) (ac : Bool)
    (env : RunEnv) :
    ∃ mid, (ResearchManager.runFromPlanning query n_searches eff pre ac env).events =
        (pre ++ mid) ++ ["Finished writing report", env.reportResult.markdown_report] ∧
      ∀ e ∈ mid, finalReportTagged e = false := by
  refine ⟨["## Generating search plan...",
      "Will perform **" ++ toString (truncateSearches env.planResult n_searches).length
        ++ "** searches (validated: " ++ toString n_searches ++ " requested) \n"]
    ++ (truncateSearches env.planResult n_searches).flatMap
        (fun s => ["Query: **" ++ s.query ++ "** \t", "Reason: " ++ s.reason ++ " \n"])
    ++ ["## Searching..."]
    ++ completedEvents (truncateSearches env.planResult n_searches).length
        env.searchCompletion.length
    ++ ["Finished searching \n", "## Thinking about report..."], ?_, ?_⟩
  · unfold ResearchManager.runFromPlanning
    simp [List.append_assoc]
  · intro e he
    simp only [List.append_assoc, List.mem_append] at he
    rcases he with h | h | h | h | h
    · simp only [List.mem_cons, List.not_mem_nil, or_false] at h
      rcases h with h | h <;> subst h
      · exact rfl
      · exact rfl
    · rw [List.mem_flatMap] at h
      obtain ⟨s, _, hs⟩ := h
      simp only [List.mem_cons, List.not_mem_nil, or_false] at hs
      rcases hs with h | h <;> subst h
      · exact rfl
      · exact rfl
    · rw [List.mem_singleton] at h
      subst h
      exact rfl
    · unfold completedEvents at h
      rw [List.mem_map] at h
      obtain ⟨i, _, hi⟩ := h
      subst hi
      exact rfl
    · simp only [List.mem_cons, List.not_mem_nil, or_false] at h
      rcases h with h | h <;> subst h
      · exact rfl
      · exact rfl

lemma runFromPlanning_report_last (query : String) (n_searches : Int)
    (eff : Option (List (String × String))) (pre0 : List String) (ac : Bool)
    (env : RunEnv) (hpre0 : ∀ e ∈ pre0, finalReportTagged e = false) :
    ∃ pre, (ResearchManager.runFromPlanning query n_searches eff pre0 ac env).events =
        pre ++ ["Finished writing report", env.reportResult.markdown_report] ∧
      (∀ e ∈ pre, finalReportTagged e = false) ∧
      (ResearchManager.runFromPlanning query n_searches eff pre0 ac env).events.getLast? =
        Option.some env.reportResult.markdown_report := by
  obtain ⟨mid, hev, hmid⟩ := runFromPlanning_events_split query n_searches eff pre0 ac env
  refine ⟨pre0 ++ mid, hev, ?_, ?_⟩
  · intro e he
    rcases List.mem_append.mp he with h | h
    · exact hpre0 e h
    · exact hmid e h
  · rw [hev]
    simp [List.getLast?_append]

/-- Claim C5: on every success path (an assessor decline or raise when
starting fresh, or any resume call) the final report body is the last event
of the stream, it comes right after the "Finished writing report" event, and
— with the writer's report-marker convention modelled from the spec (the
`writer_agent` module is not under `src/`; `deep_research.py` recognizes the
report by the fixed `"# Final report for"` marker) — that last event is
final-report-marked while no earlier event is. -/
theorem C5_final_report_last (self : ResearchManager) (query : String)
    (nInput : NInput) (traceIdOpt : Option String) (env : RunEnv)
    (ca : ClarificationAnswers)
    (hsucc : ca = ClarificationAnswers.pyNone →
      env.clarificationResult = Option.none ∨
      ∃ plan, env.clarificationResult = Option.some plan ∧
        plan.should_ask_questions = false)
    (hm : finalReportTagged env.reportResult.markdown_report = true) :
    ∃ pre, (self.run query nInput ca traceIdOpt env).events =
        pre ++ ["Finished writing report", env.reportResult.markdown_report] ∧
      (∀ e ∈ pre, finalReportTagged e = false) ∧
      finalReportTagged "Finished writing report" = false ∧
      finalReportTagged env.reportResult.markdown_report = true ∧
      (self.run query nInput ca traceIdOpt env).events.getLast? =
        Option.some env.reportResult.markdown_report := by
  cases ca with
  | pyNone =>
      have hpre0 : ∀ e ∈ [traceLinkEvent (traceIdOpt.getD env.freshTraceId),
          "## Analyzing query complexity..."], finalReportTagged e = false := by
        intro e he
        simp only [List.mem_cons, List.not_mem_nil, or_false] at he
        rcases he with h | h <;> subst h
        · exact traceLink_not_finalReportTagged _
        · exact analyzing_not_finalReportTagged
      have hrun : self.run query nInput ClarificationAnswers.pyNone traceIdOpt env =
          ResearchManager.runFromPlanning query (validate_n_searches nInput) Option.none
            [traceLinkEvent (traceIdOpt.getD env.freshTraceId),
             "## Analyzing query complexity..."] true env := by
        unfold ResearchManager.run
        rcases hsucc rfl with h | ⟨plan, h, hask⟩
        · rw [h]
        · rw [h]
          simp [hask]
      rw [hrun]
      obtain ⟨pre, h1, h2, h3⟩ := runFromPlanning_report_last query
        (validate_n_searches nInput) Option.none _ true env hpre0
      exact ⟨pre, h1, h2, rfl, hm, h3⟩
  | skip =>
      obtain ⟨pre, h1, h2, h3⟩ := runFromPlanning_report_last query
        (validate_n_searches nInput) Option.none
        (resumeEvents self ClarificationAnswers.skip) false env
        (fun e he => (resumeEvents_untagged self ClarificationAnswers.skip e he).2)
      exact ⟨pre, h1, h2, rfl, hm, h3⟩
  | answers qa =>
      obtain ⟨pre, h1, h2, h3⟩ := runFromPlanning_report_last query
        (validate_n_searches nInput) (Option.some qa)
        (resumeEvents self (ClarificationAnswers.answers qa)) false env
        (fun e he => (resumeEvents_untagged self (ClarificationAnswers.answers qa) e he).2)
      exact ⟨pre, h1, h2, rfl, hm, h3⟩

/-- Claim C5, witness: on the concrete assessor-raise environment the last
event of the stream is the (marked) report body. -/
theorem C5_final_report_last_witness :
    ((ResearchManager.mk Option.none).run "What is photosynthesis?" (NInput.num 2)
        ClarificationAnswers.pyNone Option.none photoEnv).events.getLast? =
      Option.some photoEnv.reportResult.markdown_report :=
  (C5_final_report_last (ResearchManager.mk Option.none) "What is photosynthesis?"
    (NInput.num 2) Option.none photoEnv ClarificationAnswers.pyNone
    (fun _ => Or.inl rfl) (by decide)).choose_spec.2.2.2.2
